import Mathlib

/-!
# Verification of the registration form controller (`src/routes/register/Register.jsx`)

This file gives a shallow embedding of the `Register` component's logic:

* `FormData` / `ErrorState` mirror the two pieces of React state
  (`formData` and `errorMessage`); an `ErrorState` entry is `none` for the
  JavaScript value `false` and `some msg` for an error-message string.
* The four regular expressions of the source are embedded with JavaScript
  semantics: `\d` is `[0-9]`, `\s` is the JavaScript whitespace class, and
  `.` matches anything except the four line terminators.
* `validateForm` is the validation chain of `handleSubmit` (lines 66-171),
  with the early `return`s rendered as nested if-expressions.
* `handleSubmit` is the whole submit handler (lines 53-172): it receives the
  network response as a parameter and produces the new component state plus
  a trace of emitted events (the PUT request, the scheduled navigation, and
  the entry into the validation chain), in program order.
* `handleChange` is the input-change handler (lines 41-43).
-/

/-- The `formData` state: the six registration fields, all strings
(`Register.jsx` lines 26-33). -/
structure FormData where
  firstName : String
  lastName : String
  email : String
  phoneNumber : String
  password : String
  confirmPassword : String
deriving DecidableEq, Repr

/-- The `errorMessage` state (`Register.jsx` lines 18-25): each entry is
`false` (here `none`) or an error-message string (here `some msg`). -/
structure ErrorState where
  firstNameError : Option String
  lastNameError : Option String
  emailError : Option String
  phoneNumberError : Option String
  passwordError : Option String
  confirmPasswordError : Option String
deriving DecidableEq, Repr

/-- The initial `errorMessage` state: every entry `false`. -/
def initialErrorState : ErrorState :=
  { firstNameError := none, lastNameError := none, emailError := none
    phoneNumberError := none, passwordError := none, confirmPasswordError := none }

/-- The whole component state: `successMessage`, `showSuccess`,
`errorMessage` and `formData` (`Register.jsx` lines 16-33). -/
structure RegisterState where
  successMessage : String
  showSuccess : Bool
  errorMessage : ErrorState
  formData : FormData
deriving DecidableEq, Repr

/-! ## Character classes of the JavaScript regular expressions -/

/-- JavaScript `\s`: the WhiteSpace and LineTerminator characters of the
ECMAScript character class used by `RegExp`. -/
def isJsWhitespace (c : Char) : Bool :=
  c = '\t' || c.val = 0x0b || c.val = 0x0c || c = ' ' || c = '\n' || c = '\r' ||
  c.val = 0xa0 || c.val = 0x1680 || (0x2000 ≤ c.val && c.val ≤ 0x200a) ||
  c.val = 0x2028 || c.val = 0x2029 || c.val = 0x202f || c.val = 0x205f ||
  c.val = 0x3000 || c.val = 0xfeff

/-- JavaScript line terminators, which `.` does not match. -/
def isJsLineTerminator (c : Char) : Bool :=
  c = '\n' || c = '\r' || c.val = 0x2028 || c.val = 0x2029

/-- JavaScript `/\d/.test(s)` (used on the name fields): `s` contains a
decimal digit. `Char.isDigit` is exactly `[0-9]`. -/
def containsDigit (s : String) : Bool :=
  s.toList.any Char.isDigit

/-- A character matched by `[^\s@]` in the email regular expression. -/
def isEmailAtomChar (c : Char) : Bool :=
  !isJsWhitespace c && !(c = '@')

/-! ## Regular-expression matching

Concatenation of sub-patterns is matched by trying every split of the
character list, which is exactly the language of the regex. -/

/-- All ways to split a list into a prefix and a suffix, in order. -/
def splits : List Char → List (List Char × List Char)
  | [] => [([], [])]
  | c :: cs => ([], c :: cs) :: (splits cs).map (fun p => (c :: p.1, p.2))

/-- Match a literal character at the head of the input, returning the rest. -/
def dropLit (c : Char) : List Char → Option (List Char)
  | [] => none
  | x :: xs => if x = c then some xs else none

/-- JavaScript `/^[^\s@]+@[^\s@]+\.[^\s@]+$/.test(s)` (the email check,
`Register.jsx` line 110): a nonempty run of `[^\s@]` characters, a literal
`@`, a nonempty run, a literal `.`, and a final nonempty run reaching the
end of the string. -/
def emailRegexTest (s : String) : Bool :=
  (splits s.toList).any fun p =>
    !p.1.isEmpty && p.1.all isEmailAtomChar &&
    (match dropLit '@' p.2 with
     | some afterAt =>
        (splits afterAt).any fun q =>
          !q.1.isEmpty && q.1.all isEmailAtomChar &&
          (match dropLit '.' q.2 with
           | some tld => !tld.isEmpty && tld.all isEmailAtomChar
           | none => false)
     | none => false)

/-- JavaScript `/^\+\d{2}\d{1,2}\d{7,8}$/.test(s)` (the phone check,
`Register.jsx` line 126): a literal `+`, then two digits (country code),
one or two digits (area code), and seven or eight digits (number), reaching
the end of the string. -/
def phoneRegexTest (s : String) : Bool :=
  match dropLit '+' s.toList with
  | some rest =>
    (splits rest).any fun p =>
      decide (p.1.length = 2) && p.1.all Char.isDigit &&
      ((splits p.2).any fun q =>
        decide (1 ≤ q.1.length) && decide (q.1.length ≤ 2) &&
        q.1.all Char.isDigit &&
        decide (7 ≤ q.2.length) && decide (q.2.length ≤ 8) &&
        q.2.all Char.isDigit)
  | none => false

/-- The lookahead `(?=.*[a-z])` (and its `[A-Z]`, `\d` variants): a
character satisfying `p` occurs after a prefix of characters that `.`
matches, i.e. a prefix free of line terminators. -/
def lookaheadFinds (p : Char → Bool) : List Char → Bool
  | [] => false
  | c :: cs => p c || (!isJsLineTerminator c && lookaheadFinds p cs)

/-- JavaScript `/^(?=.*[a-z])(?=.*[A-Z])(?=.*\d).{8,}$/.test(s)` (the
password strength check, `Register.jsx` lines 143 and 151): the three
lookaheads, then at least eight characters matched by `.` (so no line
terminators) spanning the whole string. -/
def passwordRegexTest (s : String) : Bool :=
  lookaheadFinds Char.isLower s.toList &&
  lookaheadFinds Char.isUpper s.toList &&
  lookaheadFinds Char.isDigit s.toList &&
  decide (8 ≤ s.toList.length) && s.toList.all (fun c => !isJsLineTerminator c)

/-! ## Error messages of the validation chain -/

def msgMinTwoChars : String := "Must be at least 2 characters long"
def msgNoNumbers : String := "The field cannot contain numbers"
def msgBadEmail : String := "Incorrect email adress"
def msgBadPhone : String := "Incorrect phone number format e.g.(+36302748465)"
def msgWeakPassword : String := "Min. 8 characters, upper and lowercase"
def msgPasswordMismatch : String := "The passwords don\x27t match"

/-! ## The validation chain -/

/-- The validation chain of `handleSubmit` (`Register.jsx` lines 66-171):
each `return` of the source ends the chain, each `else` branch clears the
corresponding error entry (via a functional `setErrorMessage` update) and
continues. `es` is the `errorMessage` state when the chain starts. -/
def validateForm (fd : FormData) (es : ErrorState) : ErrorState :=
  if fd.firstName.length < 2 then
    { es with firstNameError := some msgMinTwoChars }
  else if containsDigit fd.firstName then
    { es with firstNameError := some msgNoNumbers }
  else
    let es := { es with firstNameError := none }
    if fd.lastName.length < 2 then
      { es with lastNameError := some msgMinTwoChars }
    else if containsDigit fd.lastName then
      { es with lastNameError := some msgNoNumbers }
    else
      let es := { es with lastNameError := none }
      if emailRegexTest fd.email = false then
        { es with emailError := some msgBadEmail }
      else
        let es := { es with emailError := none }
        if phoneRegexTest fd.phoneNumber = false then
          { es with phoneNumberError := some msgBadPhone }
        else
          let es := { es with phoneNumberError := none }
          if passwordRegexTest fd.password = false then
            { es with passwordError := some msgWeakPassword }
          else if passwordRegexTest fd.confirmPassword = false then
            { es with confirmPasswordError := some msgWeakPassword }
          else if fd.password ≠ fd.confirmPassword then
            { es with passwordError := some msgPasswordMismatch }
          else
            { es with passwordError := none, confirmPasswordError := none }

/-! ## The submit handler -/

/-- The response of `networkAdapter.put`: `none` models a null or undefined
response; `errors := none` models a response object without an `errors`
property (spec response shape: a JSON object with an `errors` array). -/
structure ApiResponse where
  errors : Option (List String)
deriving DecidableEq, Repr

/-- The condition of `Register.jsx` line 57:
`response && response.errors && response.errors.length < 1`. A present
`errors` array is always truthy in JavaScript, so the middle conjunct is
presence of the property. -/
def responseIndicatesSuccess (response : Option ApiResponse) : Bool :=
  match response with
  | some r =>
    match r.errors with
    | some errs => decide (errs.length < 1)
    | none => false
  | none => false

/-- Modelled from the spec: the constant `REGISTRATION_MESSAGES.SUCCESS`
imported from `utils/constants`, a file not part of the sources; the spec
only says a success notification message is shown, so the value is a
placeholder and no claim depends on it. -/
def REGISTRATION_MESSAGES_SUCCESS : String := "Registration successful"

/-- Externally visible actions of `handleSubmit`, in program order: the PUT
request to `/api/users/register` with its body, the `setTimeout` scheduling
of a navigation, and the entry into the validation chain. -/
inductive SubmitEvent where
  | putRequest : FormData → SubmitEvent
  | scheduleNavigate : String → Nat → SubmitEvent
  | runValidation : SubmitEvent
deriving DecidableEq, Repr

/-- Result of one `handleSubmit` call: the new component state and the
trace of emitted events. -/
structure SubmitOutcome where
  state : RegisterState
  events : List SubmitEvent
deriving DecidableEq, Repr

/-- The submit handler `handleSubmit` (`Register.jsx` lines 53-172). The network response is a
parameter (the `await`ed value of the PUT request, which is emitted first).
If the response indicates success, the success message and flag are set and
a navigation to `/login` is scheduled with a 2000 ms delay; in every case
the validation chain then runs on the submitted form data. -/
def handleSubmit (st : RegisterState) (response : Option ApiResponse) : SubmitOutcome :=
  let requestEvents := [SubmitEvent.putRequest st.formData]
  let st1 :=
    if responseIndicatesSuccess response then
      { st with successMessage := REGISTRATION_MESSAGES_SUCCESS, showSuccess := true }
    else st
  let successEvents :=
    if responseIndicatesSuccess response then
      [SubmitEvent.scheduleNavigate "/login" 2000]
    else []
  { state := { st1 with errorMessage := validateForm st.formData st.errorMessage }
    events := requestEvents ++ successEvents ++ [SubmitEvent.runValidation] }

/-! ## The change handler -/

/-- The six input `name` attributes that `handleChange` can receive. -/
inductive FieldName where
  | firstName
  | lastName
  | email
  | phoneNumber
  | password
  | confirmPassword
deriving DecidableEq, Repr

/-- Read a field of `formData` by name. -/
def getField (fd : FormData) : FieldName → String
  | FieldName.firstName => fd.firstName
  | FieldName.lastName => fd.lastName
  | FieldName.email => fd.email
  | FieldName.phoneNumber => fd.phoneNumber
  | FieldName.password => fd.password
  | FieldName.confirmPassword => fd.confirmPassword

/-- The spread-with-computed-key update
`{ ...formData, [e.target.name]: e.target.value }` of `Register.jsx`
line 42. -/
def setField (fd : FormData) : FieldName → String → FormData
  | FieldName.firstName, v => { fd with firstName := v }
  | FieldName.lastName, v => { fd with lastName := v }
  | FieldName.email, v => { fd with email := v }
  | FieldName.phoneNumber, v => { fd with phoneNumber := v }
  | FieldName.password, v => { fd with password := v }
  | FieldName.confirmPassword, v => { fd with confirmPassword := v }

/-- The change handler `handleChange` (`Register.jsx` lines 41-43): replace `formData` with a
copy updated at the changed field; no other state is touched. -/
def handleChange (st : RegisterState) (n : FieldName) (v : String) : RegisterState :=
  { st with formData := setField st.formData n v }

/-! ## Branch lemmas for the validation chain -/

theorem validateForm_firstName_short (fd : FormData) (es : ErrorState)
    (h : fd.firstName.length < 2) :
    validateForm fd es = { es with firstNameError := some msgMinTwoChars } := by
  simp [validateForm, h]

theorem validateForm_firstName_digit (fd : FormData) (es : ErrorState)
    (h1 : ¬ fd.firstName.length < 2) (h2 : containsDigit fd.firstName = true) :
    validateForm fd es = { es with firstNameError := some msgNoNumbers } := by
  simp [validateForm, h1, h2]

theorem validateForm_lastName_short (fd : FormData) (es : ErrorState)
    (h1 : ¬ fd.firstName.length < 2) (h2 : containsDigit fd.firstName = false)
    (h3 : fd.lastName.length < 2) :
    validateForm fd es =
      { es with firstNameError := none, lastNameError := some msgMinTwoChars } := by
  simp [validateForm, h1, h2, h3]

theorem validateForm_lastName_digit (fd : FormData) (es : ErrorState)
    (h1 : ¬ fd.firstName.length < 2) (h2 : containsDigit fd.firstName = false)
    (h3 : ¬ fd.lastName.length < 2) (h4 : containsDigit fd.lastName = true) :
    validateForm fd es =
      { es with firstNameError := none, lastNameError := some msgNoNumbers } := by
  simp [validateForm, h1, h2, h3, h4]

theorem validateForm_email_bad (fd : FormData) (es : ErrorState)
    (h1 : ¬ fd.firstName.length < 2) (h2 : containsDigit fd.firstName = false)
    (h3 : ¬ fd.lastName.length < 2) (h4 : containsDigit fd.lastName = false)
    (h5 : emailRegexTest fd.email = false) :
    validateForm fd es =
      { es with firstNameError := none, lastNameError := none,
                emailError := some msgBadEmail } := by
  simp [validateForm, h1, h2, h3, h4, h5]

theorem validateForm_phone_bad (fd : FormData) (es : ErrorState)
    (h1 : ¬ fd.firstName.length < 2) (h2 : containsDigit fd.firstName = false)
    (h3 : ¬ fd.lastName.length < 2) (h4 : containsDigit fd.lastName = false)
    (h5 : emailRegexTest fd.email = true) (h6 : phoneRegexTest fd.phoneNumber = false) :
    validateForm fd es =
      { es with firstNameError := none, lastNameError := none, emailError := none,
                phoneNumberError := some msgBadPhone } := by
  simp [validateForm, h1, h2, h3, h4, h5, h6]

theorem validateForm_password_weak (fd : FormData) (es : ErrorState)
    (h1 : ¬ fd.firstName.length < 2) (h2 : containsDigit fd.firstName = false)
    (h3 : ¬ fd.lastName.length < 2) (h4 : containsDigit fd.lastName = false)
    (h5 : emailRegexTest fd.email = true) (h6 : phoneRegexTest fd.phoneNumber = true)
    (h7 : passwordRegexTest fd.password = false) :
    validateForm fd es =
      { es with firstNameError := none, lastNameError := none, emailError := none,
                phoneNumberError := none, passwordError := some msgWeakPassword } := by
  simp [validateForm, h1, h2, h3, h4, h5, h6, h7]

theorem validateForm_confirm_weak (fd : FormData) (es : ErrorState)
    (h1 : ¬ fd.firstName.length < 2) (h2 : containsDigit fd.firstName = false)
    (h3 : ¬ fd.lastName.length < 2) (h4 : containsDigit fd.lastName = false)
    (h5 : emailRegexTest fd.email = true) (h6 : phoneRegexTest fd.phoneNumber = true)
    (h7 : passwordRegexTest fd.password = true)
    (h8 : passwordRegexTest fd.confirmPassword = false) :
    validateForm fd es =
      { es with firstNameError := none, lastNameError := none, emailError := none,
                phoneNumberError := none,
                confirmPasswordError := some msgWeakPassword } := by
  simp [validateForm, h1, h2, h3, h4, h5, h6, h7, h8]

theorem validateForm_password_mismatch (fd : FormData) (es : ErrorState)
    (h1 : ¬ fd.firstName.length < 2) (h2 : containsDigit fd.firstName = false)
    (h3 : ¬ fd.lastName.length < 2) (h4 : containsDigit fd.lastName = false)
    (h5 : emailRegexTest fd.email = true) (h6 : phoneRegexTest fd.phoneNumber = true)
    (h7 : passwordRegexTest fd.password = true)
    (h8 : passwordRegexTest fd.confirmPassword = true)
    (h9 : fd.password ≠ fd.confirmPassword) :
    validateForm fd es =
      { es with firstNameError := none, lastNameError := none, emailError := none,
                phoneNumberError := none,
                passwordError := some msgPasswordMismatch } := by
  simp [validateForm, h1, h2, h3, h4, h5, h6, h7, h8, h9]

theorem validateForm_all_pass (fd : FormData) (es : ErrorState)
    (h1 : ¬ fd.firstName.length < 2) (h2 : containsDigit fd.firstName = false)
    (h3 : ¬ fd.lastName.length < 2) (h4 : containsDigit fd.lastName = false)
    (h5 : emailRegexTest fd.email = true) (h6 : phoneRegexTest fd.phoneNumber = true)
    (h7 : passwordRegexTest fd.password = true)
    (h8 : passwordRegexTest fd.confirmPassword = true)
    (h9 : fd.password = fd.confirmPassword) :
    validateForm fd es =
      { es with firstNameError := none, lastNameError := none, emailError := none,
                phoneNumberError := none, passwordError := none,
                confirmPasswordError := none } := by
  simp [validateForm, h1, h2, h3, h4, h5, h6, h7, h8, h9]

/-! ## Characterizations of the regular-expression matchers -/

theorem mem_splits (l : List Char) (a b : List Char) :
    (a, b) ∈ splits l ↔ l = a ++ b := by
  induction l generalizing a b with
  | nil => cases a <;> simp [splits]
  | cons c cs ih =>
    cases a with
    | nil => simp [splits, eq_comm]
    | cons a0 a2 =>
      simp only [splits, List.mem_cons, List.mem_map, Prod.mk.injEq, List.cons_append,
        List.cons.injEq]
      constructor
      · rintro (⟨h1, _⟩ | ⟨⟨x, y⟩, hp, ⟨hc, hx⟩, hy⟩)
        · exact absurd h1 (List.cons_ne_nil a0 a2)
        · refine ⟨hc, ?_⟩
          rw [← hx, ← hy]
          exact (ih x y).mp hp
      · rintro ⟨hc, hcs⟩
        exact Or.inr ⟨(a2, b), (ih a2 b).mpr hcs, ⟨hc, rfl⟩, rfl⟩

theorem any_splits (l : List Char) (p : List Char × List Char → Bool) :
    (splits l).any p = true ↔ ∃ a b, l = a ++ b ∧ p (a, b) = true := by
  simp only [List.any_eq_true]
  constructor
  · rintro ⟨⟨a, b⟩, hmem, hp⟩
    exact ⟨a, b, (mem_splits l a b).mp hmem, hp⟩
  · rintro ⟨a, b, heq, hp⟩
    exact ⟨(a, b), (mem_splits l a b).mpr heq, hp⟩

theorem dropLit_eq_some (c : Char) (l r : List Char) :
    dropLit c l = some r ↔ l = c :: r := by
  cases l with
  | nil => simp [dropLit]
  | cons x xs =>
    by_cases hx : x = c
    · subst hx; simp [dropLit]
    · simp [dropLit, hx]

theorem isEmailAtomChar_iff (c : Char) :
    isEmailAtomChar c = true ↔ isJsWhitespace c = false ∧ c ≠ '@' := by
  simp [isEmailAtomChar]

/-- The email shape stated by the spec: a nonempty local part, `@`, a
nonempty domain, `.`, a nonempty tld, with no whitespace and no further `@`
in any part. -/
def specEmailShape (s : String) : Prop :=
  ∃ loc dom tld : List Char,
    s.toList = loc ++ '@' :: (dom ++ '.' :: tld) ∧
    loc ≠ [] ∧ dom ≠ [] ∧ tld ≠ [] ∧
    ∀ c ∈ loc ++ (dom ++ tld), isJsWhitespace c = false ∧ c ≠ '@'

theorem not_isEmpty_iff_ne_nil (l : List Char) : (!l.isEmpty) = true ↔ l ≠ [] := by
  cases l <;> simp [List.isEmpty]

theorem emailRegexTest_iff (s : String) :
    emailRegexTest s = true ↔ specEmailShape s := by
  unfold emailRegexTest specEmailShape
  rw [any_splits]
  constructor
  · rintro ⟨a, b, hab, hp⟩
    cases hb : dropLit '@' b with
    | none => rw [hb] at hp; simp at hp
    | some afterAt =>
      rw [hb] at hp
      rw [dropLit_eq_some] at hb
      simp only [Bool.and_eq_true] at hp
      obtain ⟨⟨ha1, ha2⟩, hrest⟩ := hp
      rw [any_splits] at hrest
      obtain ⟨d, e, hde, hq⟩ := hrest
      cases he : dropLit '.' e with
      | none => rw [he] at hq; simp at hq
      | some tld =>
        rw [he] at hq
        rw [dropLit_eq_some] at he
        simp only [Bool.and_eq_true] at hq
        obtain ⟨⟨hd1, hd2⟩, ht1, ht2⟩ := hq
        refine ⟨a, d, tld, ?_, ?_, ?_, ?_, ?_⟩
        · rw [hab, hb, hde, he]
        · exact (not_isEmpty_iff_ne_nil a).mp ha1
        · exact (not_isEmpty_iff_ne_nil d).mp hd1
        · exact (not_isEmpty_iff_ne_nil tld).mp ht1
        · intro c hc
          rcases List.mem_append.mp hc with h | h2
          · exact (isEmailAtomChar_iff c).mp (List.all_eq_true.mp ha2 c h)
          · rcases List.mem_append.mp h2 with h | h
            · exact (isEmailAtomChar_iff c).mp (List.all_eq_true.mp hd2 c h)
            · exact (isEmailAtomChar_iff c).mp (List.all_eq_true.mp ht2 c h)
  · rintro ⟨loc, dom, tld, hs, hl, hd, ht, hmem⟩
    refine ⟨loc, '@' :: (dom ++ '.' :: tld), hs, ?_⟩
    have hAt : dropLit '@' ('@' :: (dom ++ '.' :: tld)) = some (dom ++ '.' :: tld) := by
      simp [dropLit]
    rw [hAt]
    simp only [Bool.and_eq_true]
    refine ⟨⟨(not_isEmpty_iff_ne_nil loc).mpr hl, ?_⟩, ?_⟩
    · exact List.all_eq_true.mpr fun c hc =>
        (isEmailAtomChar_iff c).mpr (hmem c (List.mem_append.mpr (Or.inl hc)))
    · rw [any_splits]
      refine ⟨dom, '.' :: tld, rfl, ?_⟩
      have hDot : dropLit '.' ('.' :: tld) = some tld := by
        simp [dropLit]
      rw [hDot]
      simp only [Bool.and_eq_true]
      refine ⟨⟨(not_isEmpty_iff_ne_nil dom).mpr hd, ?_⟩,
        (not_isEmpty_iff_ne_nil tld).mpr ht, ?_⟩
      · exact List.all_eq_true.mpr fun c hc =>
          (isEmailAtomChar_iff c).mpr
            (hmem c (List.mem_append.mpr (Or.inr (List.mem_append.mpr (Or.inl hc)))))
      · exact List.all_eq_true.mpr fun c hc =>
          (isEmailAtomChar_iff c).mpr
            (hmem c (List.mem_append.mpr (Or.inr (List.mem_append.mpr (Or.inr hc)))))

/-- The phone shape stated by the spec: `+`, a two-digit country code, a
one-or-two-digit area code, and a seven-or-eight-digit number. -/
def specPhoneShape (s : String) : Prop :=
  ∃ cc area num : List Char,
    s.toList = '+' :: (cc ++ (area ++ num)) ∧
    cc.length = 2 ∧ 1 ≤ area.length ∧ area.length ≤ 2 ∧
    7 ≤ num.length ∧ num.length ≤ 8 ∧
    (∀ c ∈ cc, c.isDigit = true) ∧ (∀ c ∈ area, c.isDigit = true) ∧
    (∀ c ∈ num, c.isDigit = true)

theorem phoneRegexTest_iff (s : String) :
    phoneRegexTest s = true ↔ specPhoneShape s := by
  unfold phoneRegexTest specPhoneShape
  constructor
  · intro h
    cases hplus : dropLit '+' s.toList with
    | none => rw [hplus] at h; simp at h
    | some rest =>
      rw [hplus] at h
      rw [dropLit_eq_some] at hplus
      rw [any_splits] at h
      obtain ⟨cc, b, hb, hp⟩ := h
      simp only [Bool.and_eq_true, decide_eq_true_eq] at hp
      obtain ⟨⟨hcc2, hccd⟩, hq⟩ := hp
      rw [any_splits] at hq
      obtain ⟨area, num, hsplit, hr⟩ := hq
      simp only [Bool.and_eq_true, decide_eq_true_eq] at hr
      obtain ⟨⟨⟨⟨⟨ha1, ha2⟩, had⟩, hn1⟩, hn2⟩, hnd⟩ := hr
      exact ⟨cc, area, num, by rw [hplus, hb, hsplit], hcc2, ha1, ha2, hn1, hn2,
        List.all_eq_true.mp hccd, List.all_eq_true.mp had, List.all_eq_true.mp hnd⟩
  · rintro ⟨cc, area, num, hs, hcc2, ha1, ha2, hn1, hn2, hccd, had, hnd⟩
    have hplus : dropLit '+' s.toList = some (cc ++ (area ++ num)) := by
      rw [dropLit_eq_some]; exact hs
    rw [hplus]
    rw [any_splits]
    refine ⟨cc, area ++ num, rfl, ?_⟩
    simp only [Bool.and_eq_true, decide_eq_true_eq]
    refine ⟨⟨hcc2, List.all_eq_true.mpr hccd⟩, ?_⟩
    rw [any_splits]
    refine ⟨area, num, rfl, ?_⟩
    simp only [Bool.and_eq_true, decide_eq_true_eq]
    exact ⟨⟨⟨⟨⟨ha1, ha2⟩, List.all_eq_true.mpr had⟩, hn1⟩, hn2⟩,
      List.all_eq_true.mpr hnd⟩

/-- The phone pattern accepts exactly a `+` followed by 10 to 12 digits. -/
theorem phoneRegexTest_iff_digitCount (s : String) :
    phoneRegexTest s = true ↔
      ∃ ds : List Char, s.toList = '+' :: ds ∧ (∀ c ∈ ds, c.isDigit = true) ∧
        10 ≤ ds.length ∧ ds.length ≤ 12 := by
  rw [phoneRegexTest_iff]
  constructor
  · rintro ⟨cc, area, num, hs, hcc2, ha1, ha2, hn1, hn2, hccd, had, hnd⟩
    refine ⟨cc ++ (area ++ num), hs, ?_, ?_, ?_⟩
    · intro c hc
      rcases List.mem_append.mp hc with h | h
      · exact hccd c h
      · rcases List.mem_append.mp h with h2 | h2
        · exact had c h2
        · exact hnd c h2
    · simp only [List.length_append]; omega
    · simp only [List.length_append]; omega
  · rintro ⟨ds, hs, hd, h10, h12⟩
    set a := min 2 (ds.length - 9) with ha
    refine ⟨ds.take 2, (ds.drop 2).take a, (ds.drop 2).drop a, ?_, ?_, ?_, ?_, ?_, ?_,
      ?_, ?_, ?_⟩
    · rw [hs]
      congr 1
      rw [List.take_append_drop a (ds.drop 2), List.take_append_drop 2 ds]
    · simp only [List.length_take]; omega
    · simp only [List.length_take, List.length_drop]; omega
    · simp only [List.length_take]; omega
    · simp only [List.length_drop, List.length_take]; omega
    · simp only [List.length_drop, List.length_take]; omega
    · exact fun c hc => hd c (List.take_subset 2 ds hc)
    · exact fun c hc => hd c (List.drop_subset 2 ds (List.take_subset a (ds.drop 2) hc))
    · exact fun c hc => hd c (List.drop_subset 2 ds (List.drop_subset a (ds.drop 2) hc))

/-- Under the whole-string no-line-terminator condition enforced by
`.{8,}$`, each lookahead is plain containment. -/
theorem lookaheadFinds_eq_any (p : Char → Bool) (l : List Char)
    (h : ∀ c ∈ l, isJsLineTerminator c = false) :
    lookaheadFinds p l = l.any p := by
  induction l with
  | nil => rfl
  | cons c cs ih =>
    have hc : isJsLineTerminator c = false := h c (List.mem_cons_self c cs)
    have ih2 := ih fun x hx => h x (List.mem_cons_of_mem c hx)
    simp [lookaheadFinds, hc, ih2]

/-- The password pattern accepts exactly the strings of length at least 8
with no line terminator, at least one lowercase letter, one uppercase
letter, and one digit. -/
theorem passwordRegexTest_iff (s : String) :
    passwordRegexTest s = true ↔
      8 ≤ s.toList.length ∧ (∀ c ∈ s.toList, isJsLineTerminator c = false) ∧
      (∃ c ∈ s.toList, c.isLower = true) ∧ (∃ c ∈ s.toList, c.isUpper = true) ∧
      (∃ c ∈ s.toList, c.isDigit = true) := by
  unfold passwordRegexTest
  simp only [Bool.and_eq_true, decide_eq_true_eq]
  constructor
  · rintro ⟨⟨⟨⟨h1, h2⟩, h3⟩, h4⟩, h5⟩
    have hterm : ∀ c ∈ s.toList, isJsLineTerminator c = false := by
      intro c hc
      have := List.all_eq_true.mp h5 c hc
      simpa using this
    refine ⟨h4, hterm, ?_, ?_, ?_⟩
    · rw [lookaheadFinds_eq_any _ _ hterm] at h1
      exact List.any_eq_true.mp h1
    · rw [lookaheadFinds_eq_any _ _ hterm] at h2
      exact List.any_eq_true.mp h2
    · rw [lookaheadFinds_eq_any _ _ hterm] at h3
      exact List.any_eq_true.mp h3
  · rintro ⟨h1, h2, h3, h4, h5⟩
    rw [lookaheadFinds_eq_any _ _ h2, lookaheadFinds_eq_any _ _ h2,
      lookaheadFinds_eq_any _ _ h2]
    refine ⟨⟨⟨⟨List.any_eq_true.mpr h3, List.any_eq_true.mpr h4⟩,
      List.any_eq_true.mpr h5⟩, h1⟩, ?_⟩
    exact List.all_eq_true.mpr fun c hc => by simp [h2 c hc]

/-! ## Entries cleared by a passed check stay cleared in every later branch -/

theorem validateForm_firstNameError_none (fd : FormData) (es : ErrorState)
    (h1 : ¬ fd.firstName.length < 2) (h2 : containsDigit fd.firstName = false) :
    (validateForm fd es).firstNameError = none := by
  by_cases h3 : fd.lastName.length < 2
  · rw [validateForm_lastName_short fd es h1 h2 h3]
  · cases h4 : containsDigit fd.lastName with
    | true => rw [validateForm_lastName_digit fd es h1 h2 h3 h4]
    | false =>
      cases h5 : emailRegexTest fd.email with
      | false => rw [validateForm_email_bad fd es h1 h2 h3 h4 h5]
      | true =>
        cases h6 : phoneRegexTest fd.phoneNumber with
        | false => rw [validateForm_phone_bad fd es h1 h2 h3 h4 h5 h6]
        | true =>
          cases h7 : passwordRegexTest fd.password with
          | false => rw [validateForm_password_weak fd es h1 h2 h3 h4 h5 h6 h7]
          | true =>
            cases h8 : passwordRegexTest fd.confirmPassword with
            | false => rw [validateForm_confirm_weak fd es h1 h2 h3 h4 h5 h6 h7 h8]
            | true =>
              by_cases h9 : fd.password = fd.confirmPassword
              · rw [validateForm_all_pass fd es h1 h2 h3 h4 h5 h6 h7 h8 h9]
              · rw [validateForm_password_mismatch fd es h1 h2 h3 h4 h5 h6 h7 h8 h9]

theorem validateForm_lastNameError_none (fd : FormData) (es : ErrorState)
    (h1 : ¬ fd.firstName.length < 2) (h2 : containsDigit fd.firstName = false)
    (h3 : ¬ fd.lastName.length < 2) (h4 : containsDigit fd.lastName = false) :
    (validateForm fd es).lastNameError = none := by
  cases h5 : emailRegexTest fd.email with
  | false => rw [validateForm_email_bad fd es h1 h2 h3 h4 h5]
  | true =>
    cases h6 : phoneRegexTest fd.phoneNumber with
    | false => rw [validateForm_phone_bad fd es h1 h2 h3 h4 h5 h6]
    | true =>
      cases h7 : passwordRegexTest fd.password with
      | false => rw [validateForm_password_weak fd es h1 h2 h3 h4 h5 h6 h7]
      | true =>
        cases h8 : passwordRegexTest fd.confirmPassword with
        | false => rw [validateForm_confirm_weak fd es h1 h2 h3 h4 h5 h6 h7 h8]
        | true =>
          by_cases h9 : fd.password = fd.confirmPassword
          · rw [validateForm_all_pass fd es h1 h2 h3 h4 h5 h6 h7 h8 h9]
          · rw [validateForm_password_mismatch fd es h1 h2 h3 h4 h5 h6 h7 h8 h9]

theorem validateForm_emailError_none (fd : FormData) (es : ErrorState)
    (h1 : ¬ fd.firstName.length < 2) (h2 : containsDigit fd.firstName = false)
    (h3 : ¬ fd.lastName.length < 2) (h4 : containsDigit fd.lastName = false)
    (h5 : emailRegexTest fd.email = true) :
    (validateForm fd es).emailError = none := by
  cases h6 : phoneRegexTest fd.phoneNumber with
  | false => rw [validateForm_phone_bad fd es h1 h2 h3 h4 h5 h6]
  | true =>
    cases h7 : passwordRegexTest fd.password with
    | false => rw [validateForm_password_weak fd es h1 h2 h3 h4 h5 h6 h7]
    | true =>
      cases h8 : passwordRegexTest fd.confirmPassword with
      | false => rw [validateForm_confirm_weak fd es h1 h2 h3 h4 h5 h6 h7 h8]
      | true =>
        by_cases h9 : fd.password = fd.confirmPassword
        · rw [validateForm_all_pass fd es h1 h2 h3 h4 h5 h6 h7 h8 h9]
        · rw [validateForm_password_mismatch fd es h1 h2 h3 h4 h5 h6 h7 h8 h9]

theorem validateForm_phoneNumberError_none (fd : FormData) (es : ErrorState)
    (h1 : ¬ fd.firstName.length < 2) (h2 : containsDigit fd.firstName = false)
    (h3 : ¬ fd.lastName.length < 2) (h4 : containsDigit fd.lastName = false)
    (h5 : emailRegexTest fd.email = true) (h6 : phoneRegexTest fd.phoneNumber = true) :
    (validateForm fd es).phoneNumberError = none := by
  cases h7 : passwordRegexTest fd.password with
  | false => rw [validateForm_password_weak fd es h1 h2 h3 h4 h5 h6 h7]
  | true =>
    cases h8 : passwordRegexTest fd.confirmPassword with
    | false => rw [validateForm_confirm_weak fd es h1 h2 h3 h4 h5 h6 h7 h8]
    | true =>
      by_cases h9 : fd.password = fd.confirmPassword
      · rw [validateForm_all_pass fd es h1 h2 h3 h4 h5 h6 h7 h8 h9]
      · rw [validateForm_password_mismatch fd es h1 h2 h3 h4 h5 h6 h7 h8 h9]

/-! ## Claim theorems -/

/-- C1: in every `handleSubmit` invocation the PUT request to
`/api/users/register` carrying the current form data is the first emitted
event and the validation chain is entered last, after the response is in
hand — so a form that fails validation is still sent; and whatever the
response value is, the resulting error state is the one computed by the
validation chain on the submitted data. -/
theorem handleSubmit_put_before_validation (st : RegisterState)
    (response : Option ApiResponse) :
    (∃ mid : List SubmitEvent,
      (handleSubmit st response).events =
        SubmitEvent.putRequest st.formData :: (mid ++ [SubmitEvent.runValidation])) ∧
    (handleSubmit st response).state.errorMessage =
      validateForm st.formData st.errorMessage := by
  cases h : responseIndicatesSuccess response with
  | true =>
    refine ⟨⟨[SubmitEvent.scheduleNavigate "/login" 2000], ?_⟩, ?_⟩ <;>
      simp [handleSubmit, h]
  | false =>
    refine ⟨⟨[], ?_⟩, ?_⟩ <;> simp [handleSubmit, h]

/-- C2: if the response carries an empty `errors` array, `handleSubmit`
sets the success message, sets the success-toast flag, and schedules a
navigation to `/login` with a 2000 ms delay. -/
theorem handleSubmit_success_path (st : RegisterState)
    (response : Option ApiResponse) (errs : List String)
    (h1 : response = some { errors := some errs }) (h2 : errs.length < 1) :
    (handleSubmit st response).state.successMessage = REGISTRATION_MESSAGES_SUCCESS ∧
    (handleSubmit st response).state.showSuccess = true ∧
    SubmitEvent.scheduleNavigate "/login" 2000 ∈ (handleSubmit st response).events := by
  have hs : responseIndicatesSuccess response = true := by
    subst h1
    simp [responseIndicatesSuccess, h2]
  refine ⟨?_, ?_, ?_⟩ <;> simp [handleSubmit, hs]

theorem handleSubmit_success_path_witness :
    (handleSubmit
      { successMessage := "", showSuccess := false, errorMessage := initialErrorState,
        formData := { firstName := "John", lastName := "Doe", email := "a@b.c",
                      phoneNumber := "+36302748465", password := "Aa1bbbbb",
                      confirmPassword := "Aa1bbbbb" } }
      (some { errors := some [] })).state.showSuccess = true :=
  (handleSubmit_success_path _ _ [] rfl (by decide)).2.1

/-- C9: the success condition of `handleSubmit` is exactly a truthy
response whose `errors` property is present with length below one; when it
fails (null response, missing `errors`, or nonempty `errors`), the success
message, the success flag and the absence of a scheduled navigation are all
preserved, while the validation chain still runs in either case. -/
theorem handleSubmit_success_condition (st : RegisterState)
    (response : Option ApiResponse) :
    (responseIndicatesSuccess response = true ↔
      ∃ r : ApiResponse, response = some r ∧
        ∃ errs : List String, r.errors = some errs ∧ errs.length < 1) ∧
    (responseIndicatesSuccess response = true →
      (handleSubmit st response).state.successMessage = REGISTRATION_MESSAGES_SUCCESS ∧
      (handleSubmit st response).state.showSuccess = true ∧
      SubmitEvent.scheduleNavigate "/login" 2000 ∈ (handleSubmit st response).events) ∧
    (responseIndicatesSuccess response = false →
      (handleSubmit st response).state.successMessage = st.successMessage ∧
      (handleSubmit st response).state.showSuccess = st.showSuccess ∧
      ∀ route : String, ∀ delay : Nat,
        SubmitEvent.scheduleNavigate route delay ∉ (handleSubmit st response).events) ∧
    (handleSubmit st response).state.errorMessage =
      validateForm st.formData st.errorMessage := by
  refine ⟨?_, ?_, ?_, ?_⟩
  · constructor
    · intro h
      cases response with
      | none => simp [responseIndicatesSuccess] at h
      | some r =>
        cases hr : r.errors with
        | none => simp [responseIndicatesSuccess, hr] at h
        | some errs =>
          simp only [responseIndicatesSuccess, hr, decide_eq_true_eq] at h
          exact ⟨r, rfl, errs, hr, h⟩
    · rintro ⟨r, rfl, errs, hr, hlen⟩
      simp [responseIndicatesSuccess, hr, hlen]
  · intro h
    refine ⟨?_, ?_, ?_⟩ <;> simp [handleSubmit, h]
  · intro h
    refine ⟨?_, ?_, ?_⟩ <;> simp [handleSubmit, h]
  · cases h : responseIndicatesSuccess response <;> simp [handleSubmit, h]

theorem handleSubmit_success_condition_witness :
    (handleSubmit
      { successMessage := "old", showSuccess := false,
        errorMessage := initialErrorState,
        formData := { firstName := "John", lastName := "Doe", email := "a@b.c",
                      phoneNumber := "+36302748465", password := "Aa1bbbbb",
                      confirmPassword := "Aa1bbbbb" } }
      none).state.showSuccess = false :=
  ((handleSubmit_success_condition _ none).2.2.1 (by decide)).2.1

/-- C8: `handleChange` writes the value into the named field and changes
nothing else: the other five form fields, the whole error state, the
success message and the success flag keep their values. -/
theorem handleChange_frame (st : RegisterState) (n : FieldName) (v : String) :
    getField (handleChange st n v).formData n = v ∧
    (∀ m : FieldName, m ≠ n →
      getField (handleChange st n v).formData m = getField st.formData m) ∧
    (handleChange st n v).errorMessage = st.errorMessage ∧
    (handleChange st n v).successMessage = st.successMessage ∧
    (handleChange st n v).showSuccess = st.showSuccess := by
  refine ⟨?_, ?_, rfl, rfl, rfl⟩
  · cases n <;> rfl
  · intro m hm
    cases n <;> cases m <;> first | rfl | exact absurd rfl hm

theorem handleChange_frame_witness :
    getField
      ((handleChange
        { successMessage := "", showSuccess := false,
          errorMessage := initialErrorState,
          formData := { firstName := "", lastName := "Doe", email := "",
                        phoneNumber := "", password := "", confirmPassword := "" } }
        FieldName.firstName "Jo").formData) FieldName.lastName = "Doe" :=
  (handleChange_frame _ FieldName.firstName "Jo").2.1 FieldName.lastName (by decide)

/-- C3: the validations run in the fixed order firstName, lastName, email,
phoneNumber, password/confirmPassword and short-circuit on the first
failing check: exactly that check's error entry carries a message in the
result, entries of checks already passed are cleared, and entries of all
later checks keep their previous values (the chain returned early), so a
single submit reports at most one newly failing field. -/
theorem validateForm_short_circuit_order (fd : FormData) (es : ErrorState) :
    (fd.firstName.length < 2 ∨ containsDigit fd.firstName = true →
      ∃ m : String, validateForm fd es = { es with firstNameError := some m }) ∧
    (¬ fd.firstName.length < 2 → containsDigit fd.firstName = false →
      fd.lastName.length < 2 ∨ containsDigit fd.lastName = true →
      ∃ m : String, validateForm fd es =
        { es with firstNameError := none, lastNameError := some m }) ∧
    (¬ fd.firstName.length < 2 → containsDigit fd.firstName = false →
      ¬ fd.lastName.length < 2 → containsDigit fd.lastName = false →
      emailRegexTest fd.email = false →
      validateForm fd es =
        { es with firstNameError := none, lastNameError := none,
                  emailError := some msgBadEmail }) ∧
    (¬ fd.firstName.length < 2 → containsDigit fd.firstName = false →
      ¬ fd.lastName.length < 2 → containsDigit fd.lastName = false →
      emailRegexTest fd.email = true → phoneRegexTest fd.phoneNumber = false →
      validateForm fd es =
        { es with firstNameError := none, lastNameError := none, emailError := none,
                  phoneNumberError := some msgBadPhone }) ∧
    (¬ fd.firstName.length < 2 → containsDigit fd.firstName = false →
      ¬ fd.lastName.length < 2 → containsDigit fd.lastName = false →
      emailRegexTest fd.email = true → phoneRegexTest fd.phoneNumber = true →
      passwordRegexTest fd.password = false ∨
        (passwordRegexTest fd.password = true ∧
          passwordRegexTest fd.confirmPassword = false) ∨
        (passwordRegexTest fd.password = true ∧
          passwordRegexTest fd.confirmPassword = true ∧
          fd.password ≠ fd.confirmPassword) →
      (∃ m : String, validateForm fd es =
        { es with firstNameError := none, lastNameError := none, emailError := none,
                  phoneNumberError := none, passwordError := some m }) ∨
      (∃ m : String, validateForm fd es =
        { es with firstNameError := none, lastNameError := none, emailError := none,
                  phoneNumberError := none, confirmPasswordError := some m })) := by
  refine ⟨?_, ?_, ?_, ?_, ?_⟩
  · intro h
    by_cases hlen : fd.firstName.length < 2
    · exact ⟨msgMinTwoChars, validateForm_firstName_short fd es hlen⟩
    · exact ⟨msgNoNumbers,
        validateForm_firstName_digit fd es hlen (h.resolve_left hlen)⟩
  · intro h1 h2 h
    by_cases hlen : fd.lastName.length < 2
    · exact ⟨msgMinTwoChars, validateForm_lastName_short fd es h1 h2 hlen⟩
    · exact ⟨msgNoNumbers,
        validateForm_lastName_digit fd es h1 h2 hlen (h.resolve_left hlen)⟩
  · exact fun h1 h2 h3 h4 h5 => validateForm_email_bad fd es h1 h2 h3 h4 h5
  · exact fun h1 h2 h3 h4 h5 h6 => validateForm_phone_bad fd es h1 h2 h3 h4 h5 h6
  · rintro h1 h2 h3 h4 h5 h6 (h7 | ⟨h7, h8⟩ | ⟨h7, h8, h9⟩)
    · exact Or.inl ⟨msgWeakPassword,
        validateForm_password_weak fd es h1 h2 h3 h4 h5 h6 h7⟩
    · exact Or.inr ⟨msgWeakPassword,
        validateForm_confirm_weak fd es h1 h2 h3 h4 h5 h6 h7 h8⟩
    · exact Or.inl ⟨msgPasswordMismatch,
        validateForm_password_mismatch fd es h1 h2 h3 h4 h5 h6 h7 h8 h9⟩

theorem validateForm_short_circuit_order_witness :
    ∃ m : String,
      validateForm
        { firstName := "J", lastName := "Doe", email := "a@b.c",
          phoneNumber := "+36302748465", password := "Aa1bbbbb",
          confirmPassword := "Aa1bbbbb" } initialErrorState =
      { initialErrorState with firstNameError := some m } :=
  (validateForm_short_circuit_order _ initialErrorState).1 (Or.inl (by decide))

/-- C4: a first name shorter than two characters is rejected with
`msgMinTwoChars`, a first name of admissible length containing a digit is
rejected with `msgNoNumbers`, and in both cases the chain returns at once,
leaving every other entry untouched; the same holds for the last name once
the first name has passed, with only the cleared `firstNameError` also
changed. -/
theorem validateForm_name_rules (fd : FormData) (es : ErrorState) :
    (fd.firstName.length < 2 →
      validateForm fd es = { es with firstNameError := some msgMinTwoChars }) ∧
    (¬ fd.firstName.length < 2 → containsDigit fd.firstName = true →
      validateForm fd es = { es with firstNameError := some msgNoNumbers }) ∧
    (¬ fd.firstName.length < 2 → containsDigit fd.firstName = false →
      fd.lastName.length < 2 →
      validateForm fd es =
        { es with firstNameError := none, lastNameError := some msgMinTwoChars }) ∧
    (¬ fd.firstName.length < 2 → containsDigit fd.firstName = false →
      ¬ fd.lastName.length < 2 → containsDigit fd.lastName = true →
      validateForm fd es =
        { es with firstNameError := none, lastNameError := some msgNoNumbers }) :=
  ⟨fun h => validateForm_firstName_short fd es h,
   fun h1 h2 => validateForm_firstName_digit fd es h1 h2,
   fun h1 h2 h3 => validateForm_lastName_short fd es h1 h2 h3,
   fun h1 h2 h3 h4 => validateForm_lastName_digit fd es h1 h2 h3 h4⟩

theorem validateForm_name_rules_witness :
    validateForm
      { firstName := "John", lastName := "D0e", email := "a@b.c",
        phoneNumber := "+36302748465", password := "Aa1bbbbb",
        confirmPassword := "Aa1bbbbb" } initialErrorState =
    { initialErrorState with firstNameError := none,
                             lastNameError := some msgNoNumbers } :=
  (validateForm_name_rules _ initialErrorState).2.2.2 (by decide) (by decide)
    (by decide) (by decide)

/-- C5: once the name fields have passed, the email is accepted exactly
when it has the `local@domain.tld` shape — nonempty parts around a literal
`@` and a literal `.`, with no whitespace and no further `@` anywhere — and
a non-matching email sets `emailError := msgBadEmail` and stops the chain,
leaving every later entry untouched. -/
theorem validateForm_email_rule (fd : FormData) (es : ErrorState)
    (h1 : ¬ fd.firstName.length < 2) (h2 : containsDigit fd.firstName = false)
    (h3 : ¬ fd.lastName.length < 2) (h4 : containsDigit fd.lastName = false) :
    ((validateForm fd es).emailError = none ↔ specEmailShape fd.email) ∧
    (¬ specEmailShape fd.email →
      validateForm fd es =
        { es with firstNameError := none, lastNameError := none,
                  emailError := some msgBadEmail }) := by
  cases h5 : emailRegexTest fd.email with
  | true =>
    have hs : specEmailShape fd.email := (emailRegexTest_iff fd.email).mp h5
    exact ⟨⟨fun _ => hs, fun _ => validateForm_emailError_none fd es h1 h2 h3 h4 h5⟩,
      fun hns => absurd hs hns⟩
  | false =>
    have hs : ¬ specEmailShape fd.email := by
      intro hsp
      rw [(emailRegexTest_iff fd.email).mpr hsp] at h5
      cases h5
    refine ⟨⟨fun he => ?_, fun hsp => absurd hsp hs⟩,
      fun _ => validateForm_email_bad fd es h1 h2 h3 h4 h5⟩
    rw [validateForm_email_bad fd es h1 h2 h3 h4 h5] at he
    simp at he

theorem validateForm_email_rule_witness :
    (validateForm
      { firstName := "John", lastName := "Doe", email := "a@b.c",
        phoneNumber := "+36302748465", password := "Aa1bbbbb",
        confirmPassword := "Aa1bbbbb" } initialErrorState).emailError = none :=
  (validateForm_email_rule _ initialErrorState
      (by decide) (by decide) (by decide) (by decide)).1.mpr
    ⟨['a'], ['b'], ['c'], by decide, by decide, by decide, by decide, by decide⟩

/-- C6: once the names and the email have passed, the phone number is
accepted exactly when it is `+`, a two-digit country code, a one-or-two
digit area code and a seven-or-eight digit number — equivalently `+`
followed by 10 to 12 digits — and otherwise
`phoneNumberError := msgBadPhone` is set and the chain stops, leaving every
later entry untouched. -/
theorem validateForm_phone_rule (fd : FormData) (es : ErrorState)
    (h1 : ¬ fd.firstName.length < 2) (h2 : containsDigit fd.firstName = false)
    (h3 : ¬ fd.lastName.length < 2) (h4 : containsDigit fd.lastName = false)
    (h5 : emailRegexTest fd.email = true) :
    ((validateForm fd es).phoneNumberError = none ↔ specPhoneShape fd.phoneNumber) ∧
    (specPhoneShape fd.phoneNumber ↔
      ∃ ds : List Char, fd.phoneNumber.toList = '+' :: ds ∧
        (∀ c ∈ ds, c.isDigit = true) ∧ 10 ≤ ds.length ∧ ds.length ≤ 12) ∧
    (¬ specPhoneShape fd.phoneNumber →
      validateForm fd es =
        { es with firstNameError := none, lastNameError := none, emailError := none,
                  phoneNumberError := some msgBadPhone }) := by
  refine ⟨?_, Iff.trans (phoneRegexTest_iff fd.phoneNumber).symm
    (phoneRegexTest_iff_digitCount fd.phoneNumber), ?_⟩
  · cases h6 : phoneRegexTest fd.phoneNumber with
    | true =>
      have hs : specPhoneShape fd.phoneNumber :=
        (phoneRegexTest_iff fd.phoneNumber).mp h6
      exact ⟨fun _ => hs,
        fun _ => validateForm_phoneNumberError_none fd es h1 h2 h3 h4 h5 h6⟩
    | false =>
      have hs : ¬ specPhoneShape fd.phoneNumber := by
        intro hsp
        rw [(phoneRegexTest_iff fd.phoneNumber).mpr hsp] at h6
        cases h6
      refine ⟨fun he => ?_, fun hsp => absurd hsp hs⟩
      rw [validateForm_phone_bad fd es h1 h2 h3 h4 h5 h6] at he
      simp at he
  · cases h6 : phoneRegexTest fd.phoneNumber with
    | true =>
      have hs : specPhoneShape fd.phoneNumber :=
        (phoneRegexTest_iff fd.phoneNumber).mp h6
      exact fun hns => absurd hs hns
    | false =>
      exact fun _ => validateForm_phone_bad fd es h1 h2 h3 h4 h5 h6

theorem validateForm_phone_rule_witness :
    (validateForm
      { firstName := "John", lastName := "Doe", email := "a@b.c",
        phoneNumber := "+36302748465", password := "Aa1bbbbb",
        confirmPassword := "Aa1bbbbb" } initialErrorState).phoneNumberError = none :=
  (validateForm_phone_rule _ initialErrorState
      (by decide) (by decide) (by decide) (by decide) (by decide)).1.mpr
    ⟨['3', '6'], ['3', '0'], ['2', '7', '4', '8', '4', '6', '5'], by decide, by decide,
      by decide, by decide, by decide, by decide, by decide, by decide, by decide⟩

/-- The password strength rule as worded by the claim: length at least 8
with at least one lowercase letter, one uppercase letter and one digit
(no condition on line-terminator characters). -/
def claimStrengthRule (s : String) : Bool :=
  decide (8 ≤ s.length) && s.toList.any Char.isLower &&
  s.toList.any Char.isUpper && s.toList.any Char.isDigit

/-- C7 counterexample: with every earlier field valid and
password = confirmPassword = "Aa1bbbbb\n", the claim's strength rule holds
(9 characters with a lowercase letter, an uppercase letter and a digit) and
the passwords are equal, so the claim predicts both password entries
cleared; but JavaScript `.` does not match the newline, so the code's
`.{8,}$` test fails and `passwordError := msgWeakPassword` is set. -/
theorem validateForm_password_rule_counterexample :
    claimStrengthRule "Aa1bbbbb\n" = true ∧
    (validateForm
      { firstName := "John", lastName := "Doe", email := "a@b.c",
        phoneNumber := "+36302748465", password := "Aa1bbbbb\n",
        confirmPassword := "Aa1bbbbb\n" } initialErrorState).passwordError =
      some msgWeakPassword :=
  ⟨by decide, by decide⟩

/-- C7 (amended): once names, email and phone have passed, the strength
rule applied is the code's regex — length at least 8, one lowercase, one
uppercase, one digit, and no line-terminator character (the final
characterization below) — with exactly the claimed branch order: a weak
password sets `passwordError` and returns; else a weak confirmPassword
sets `confirmPasswordError` and returns; else unequal passwords set
`passwordError := msgPasswordMismatch` and return; else both password
entries are cleared. -/
theorem validateForm_password_rule (fd : FormData) (es : ErrorState)
    (h1 : ¬ fd.firstName.length < 2) (h2 : containsDigit fd.firstName = false)
    (h3 : ¬ fd.lastName.length < 2) (h4 : containsDigit fd.lastName = false)
    (h5 : emailRegexTest fd.email = true) (h6 : phoneRegexTest fd.phoneNumber = true) :
    (passwordRegexTest fd.password = false →
      validateForm fd es =
        { es with firstNameError := none, lastNameError := none, emailError := none,
                  phoneNumberError := none, passwordError := some msgWeakPassword }) ∧
    (passwordRegexTest fd.password = true →
      passwordRegexTest fd.confirmPassword = false →
      validateForm fd es =
        { es with firstNameError := none, lastNameError := none, emailError := none,
                  phoneNumberError := none,
                  confirmPasswordError := some msgWeakPassword }) ∧
    (passwordRegexTest fd.password = true →
      passwordRegexTest fd.confirmPassword = true →
      fd.password ≠ fd.confirmPassword →
      validateForm fd es =
        { es with firstNameError := none, lastNameError := none, emailError := none,
                  phoneNumberError := none,
                  passwordError := some msgPasswordMismatch }) ∧
    (passwordRegexTest fd.password = true →
      passwordRegexTest fd.confirmPassword = true →
      fd.password = fd.confirmPassword →
      (validateForm fd es).passwordError = none ∧
      (validateForm fd es).confirmPasswordError = none) ∧
    (∀ s : String, passwordRegexTest s = true ↔
      8 ≤ s.toList.length ∧ (∀ c ∈ s.toList, isJsLineTerminator c = false) ∧
      (∃ c ∈ s.toList, c.isLower = true) ∧ (∃ c ∈ s.toList, c.isUpper = true) ∧
      (∃ c ∈ s.toList, c.isDigit = true)) := by
  refine ⟨?_, ?_, ?_, ?_, fun s => passwordRegexTest_iff s⟩
  · exact fun h7 => validateForm_password_weak fd es h1 h2 h3 h4 h5 h6 h7
  · exact fun h7 h8 => validateForm_confirm_weak fd es h1 h2 h3 h4 h5 h6 h7 h8
  · exact fun h7 h8 h9 => validateForm_password_mismatch fd es h1 h2 h3 h4 h5 h6 h7 h8 h9
  · intro h7 h8 h9
    rw [validateForm_all_pass fd es h1 h2 h3 h4 h5 h6 h7 h8 h9]
    exact ⟨rfl, rfl⟩

theorem validateForm_password_rule_witness :
    validateForm
      { firstName := "John", lastName := "Doe", email := "a@b.c",
        phoneNumber := "+36302748465", password := "weak",
        confirmPassword := "Aa1bbbbb" } initialErrorState =
    { initialErrorState with passwordError := some msgWeakPassword } :=
  (validateForm_password_rule _ initialErrorState (by decide) (by decide) (by decide)
      (by decide) (by decide) (by decide)).1 (by decide)

/-- C10: within one submit, every check that is reached and passes clears
its own entry, while the entries belonging to checks after the first
failing one keep whatever values they had before the call (stale messages
persist); and when every check passes, all six entries end up cleared. -/
theorem validateForm_reset_and_stale (fd : FormData) (es : ErrorState) :
    (fd.firstName.length < 2 ∨ containsDigit fd.firstName = true →
      (validateForm fd es).lastNameError = es.lastNameError ∧
      (validateForm fd es).emailError = es.emailError ∧
      (validateForm fd es).phoneNumberError = es.phoneNumberError ∧
      (validateForm fd es).passwordError = es.passwordError ∧
      (validateForm fd es).confirmPasswordError = es.confirmPasswordError) ∧
    (¬ fd.firstName.length < 2 → containsDigit fd.firstName = false →
      (validateForm fd es).firstNameError = none) ∧
    (¬ fd.firstName.length < 2 → containsDigit fd.firstName = false →
      fd.lastName.length < 2 ∨ containsDigit fd.lastName = true →
      (validateForm fd es).emailError = es.emailError ∧
      (validateForm fd es).phoneNumberError = es.phoneNumberError ∧
      (validateForm fd es).passwordError = es.passwordError ∧
      (validateForm fd es).confirmPasswordError = es.confirmPasswordError) ∧
    (¬ fd.firstName.length < 2 → containsDigit fd.firstName = false →
      ¬ fd.lastName.length < 2 → containsDigit fd.lastName = false →
      (validateForm fd es).lastNameError = none) ∧
    (¬ fd.firstName.length < 2 → containsDigit fd.firstName = false →
      ¬ fd.lastName.length < 2 → containsDigit fd.lastName = false →
      emailRegexTest fd.email = false →
      (validateForm fd es).phoneNumberError = es.phoneNumberError ∧
      (validateForm fd es).passwordError = es.passwordError ∧
      (validateForm fd es).confirmPasswordError = es.confirmPasswordError) ∧
    (¬ fd.firstName.length < 2 → containsDigit fd.firstName = false →
      ¬ fd.lastName.length < 2 → containsDigit fd.lastName = false →
      emailRegexTest fd.email = true →
      (validateForm fd es).emailError = none) ∧
    (¬ fd.firstName.length < 2 → containsDigit fd.firstName = false →
      ¬ fd.lastName.length < 2 → containsDigit fd.lastName = false →
      emailRegexTest fd.email = true → phoneRegexTest fd.phoneNumber = false →
      (validateForm fd es).passwordError = es.passwordError ∧
      (validateForm fd es).confirmPasswordError = es.confirmPasswordError) ∧
    (¬ fd.firstName.length < 2 → containsDigit fd.firstName = false →
      ¬ fd.lastName.length < 2 → containsDigit fd.lastName = false →
      emailRegexTest fd.email = true → phoneRegexTest fd.phoneNumber = true →
      (validateForm fd es).phoneNumberError = none) ∧
    (¬ fd.firstName.length < 2 → containsDigit fd.firstName = false →
      ¬ fd.lastName.length < 2 → containsDigit fd.lastName = false →
      emailRegexTest fd.email = true → phoneRegexTest fd.phoneNumber = true →
      passwordRegexTest fd.password = false →
      (validateForm fd es).confirmPasswordError = es.confirmPasswordError) ∧
    (¬ fd.firstName.length < 2 → containsDigit fd.firstName = false →
      ¬ fd.lastName.length < 2 → containsDigit fd.lastName = false →
      emailRegexTest fd.email = true → phoneRegexTest fd.phoneNumber = true →
      passwordRegexTest fd.password = true →
      passwordRegexTest fd.confirmPassword = true →
      fd.password = fd.confirmPassword →
      validateForm fd es =
        { firstNameError := none, lastNameError := none, emailError := none,
          phoneNumberError := none, passwordError := none,
          confirmPasswordError := none }) := by
  refine ⟨?_, ?_, ?_, ?_, ?_, ?_, ?_, ?_, ?_, ?_⟩
  · intro h
    by_cases hlen : fd.firstName.length < 2
    · rw [validateForm_firstName_short fd es hlen]
      exact ⟨rfl, rfl, rfl, rfl, rfl⟩
    · rw [validateForm_firstName_digit fd es hlen (h.resolve_left hlen)]
      exact ⟨rfl, rfl, rfl, rfl, rfl⟩
  · exact fun h1 h2 => validateForm_firstNameError_none fd es h1 h2
  · intro h1 h2 h
    by_cases hlen : fd.lastName.length < 2
    · rw [validateForm_lastName_short fd es h1 h2 hlen]
      exact ⟨rfl, rfl, rfl, rfl⟩
    · rw [validateForm_lastName_digit fd es h1 h2 hlen (h.resolve_left hlen)]
      exact ⟨rfl, rfl, rfl, rfl⟩
  · exact fun h1 h2 h3 h4 => validateForm_lastNameError_none fd es h1 h2 h3 h4
  · intro h1 h2 h3 h4 h5
    rw [validateForm_email_bad fd es h1 h2 h3 h4 h5]
    exact ⟨rfl, rfl, rfl⟩
  · exact fun h1 h2 h3 h4 h5 => validateForm_emailError_none fd es h1 h2 h3 h4 h5
  · intro h1 h2 h3 h4 h5 h6
    rw [validateForm_phone_bad fd es h1 h2 h3 h4 h5 h6]
    exact ⟨rfl, rfl⟩
  · exact fun h1 h2 h3 h4 h5 h6 =>
      validateForm_phoneNumberError_none fd es h1 h2 h3 h4 h5 h6
  · intro h1 h2 h3 h4 h5 h6 h7
    rw [validateForm_password_weak fd es h1 h2 h3 h4 h5 h6 h7]
  · intro h1 h2 h3 h4 h5 h6 h7 h8 h9
    rw [validateForm_all_pass fd es h1 h2 h3 h4 h5 h6 h7 h8 h9]

theorem validateForm_reset_and_stale_witness :
    validateForm
      { firstName := "John", lastName := "Doe", email := "a@b.c",
        phoneNumber := "+36302748465", password := "Aa1bbbbb",
        confirmPassword := "Aa1bbbbb" }
      { firstNameError := some "stale", lastNameError := some "stale",
        emailError := some "stale", phoneNumberError := some "stale",
        passwordError := some "stale", confirmPasswordError := some "stale" } =
    { firstNameError := none, lastNameError := none, emailError := none,
      phoneNumberError := none, passwordError := none,
      confirmPasswordError := none } :=
  (validateForm_reset_and_stale _ _).2.2.2.2.2.2.2.2.2 (by decide) (by decide)
    (by decide) (by decide) (by decide) (by decide) (by decide) (by decide) (by decide)
